import Mathlib

/-!
Shallow embedding of the bmcweb D-Bus utility layer, `dbus_utility.hpp`.

The file models:
- the pure path utilities `escapePathForDbus` and `getNthStringFromPath`
  (the latter built on `std::filesystem::path` component iteration and
  `stem()` semantics);
- the asynchronous object-mapper gateway (`checkDbusPathExists`,
  `getSubTree`, `getSubTreePaths`, `getAssociationEndPoints`) and the
  two-stage association pipeline (`validateAssociatedSubTreePaths`,
  `getAssociatedSubTreePaths`).

The bus is modelled as a deterministic reply table (`BusState`): each
remote call is a lookup of the reply the bus would deliver for the given
arguments.  A `boost::system::error_code` is modelled as a `Nat`, with
`0` meaning success and any non-zero value a failure code.  The
callback-chained control flow is embedded in continuation-passing style;
each run also produces an event trace (`Event`) recording, in order,
every remote call issued (with the bus address constants and arguments
it was issued with), every reply observed, and whether the merging step
of the pipeline executed.
-/

namespace dbus

namespace utility

/-- Well-known mapper service name (source: string literal at the call sites). -/
def mapperBusName : String := "xyz.openbmc_project.ObjectMapper"

/-- Well-known mapper object path. -/
def mapperObjectPath : String := "/xyz/openbmc_project/object_mapper"

/-- Well-known mapper interface name. -/
def mapperInterface : String := "xyz.openbmc_project.ObjectMapper"

/-- Association interface used by `getAssociationEndPoints`. -/
def associationInterface : String := "xyz.openbmc_project.Association"

/-- Shape of `MapperGetObject`: list of (service name, list of interfaces). -/
abbrev MapperGetObject := List (String × List String)

/-- Shape of `MapperGetSubTreeResponse`: object paths with their service maps. -/
abbrev MapperGetSubTreeResponse := List (String × List (String × List String))

/-- Shape of `MapperGetSubTreePathsResponse`: a plain list of object paths. -/
abbrev MapperGetSubTreePathsResponse := List String

/-- Shape of `MapperEndPoints`: the object paths read from an `endpoints` property. -/
abbrev MapperEndPoints := List String

/-! ## Pure path utilities -/

/-- One character of `std::regex_replace(path, regex("[^A-Za-z0-9_/]"), "_")`:
a character in the class `[A-Za-z0-9_/]` passes through, anything else
becomes an underscore. -/
def escapeCharForDbus (c : Char) : Char :=
  if ( 'A' ≤ c ∧ c ≤ 'Z') ∨ ( 'a' ≤ c ∧ c ≤ 'z') ∨
      ( '0' ≤ c ∧ c ≤ '9') ∨ c = '_' ∨ c = '/' then c
  else '_'

/-- Model of `escapePathForDbus`: replace, in place, every character of `path`
outside `[A-Za-z0-9_/]` with an underscore. -/
def escapePathForDbus (path : String) : String :=
  String.mk (path.data.map escapeCharForDbus)

/-- Split a character list at the separator `/`, keeping empty pieces. -/
def splitOnSlashAux : List Char → List Char → List String
  | [], acc => [String.mk acc.reverse]
  | c :: cs, acc =>
    if c = '/' then String.mk acc.reverse :: splitOnSlashAux cs []
    else splitOnSlashAux cs (c :: acc)

/-- The components of the path that satisfy `has_filename()` under
`std::filesystem::path` iteration: the non-empty segments between
separators, in order (the root directory and trailing empty component
have no filename; repeated separators collapse). -/
def pathSegments (path : String) : List String :=
  (splitOnSlashAux path.data []).filter (fun seg => seg ≠ "")

/-- Model of `std::filesystem::path::stem()` on a filename: drop the substring
from the rightmost period to the end, unless the filename is `.` or
`..`, or the rightmost period is the first character. -/
def stemString (s : String) : String :=
  if s = "." ∨ s = ".." then s
  else
    match s.data.reverse.findIdx? (fun c => c = '.') with
    | none => s
    | some k =>
      if k = s.data.length - 1 then s
      else String.mk (s.data.take (s.data.length - 1 - k))

/-- Model of `getNthStringFromPath(path, index, result)`: returns the pair of the
`bool` return value and the final value of the in/out parameter
`result` (whose initial value is the third argument). -/
def getNthStringFromPath (path : String) (index : Int) (result : String) :
    Bool × String :=
  if index < 0 then (false, result)
  else
    match (pathSegments path).get? index.toNat with
    | some seg => (true, stemString seg)
    | none => (false, result)

/-! ## The bus model and the event trace -/

/-- The replies a fixed bus delivers, per remote operation and argument
list.  Each field returns `(error code, payload)`; error code `0` is
success. -/
structure BusState where
  /-- Reply to `sdbusplus::asio::getProperty` as a list of strings:
  arguments are service, object path, interface, property name. -/
  propertyReply : String → String → String → String → Nat × MapperEndPoints
  /-- Reply to the mapper method `GetObject path interfaces`. -/
  getObjectReply : String → List String → Nat × MapperGetObject
  /-- Reply to the mapper method `GetSubTree path depth interfaces`. -/
  subTreeReply : String → Int → List String → Nat × MapperGetSubTreeResponse
  /-- Reply to the mapper method `GetSubTreePaths path depth interfaces`. -/
  subTreePathsReply : String → Int → List String →
    Nat × MapperGetSubTreePathsResponse

/-- One observable step of a run: a remote call being issued (with the
full address and arguments it is issued with), a reply being observed,
or the pipeline's merge step executing. -/
inductive Event where
  | issueMethod (service objectPath iface method argPath : String)
      (argDepth : Option Int) (argInterfaces : List String)
  | issueProperty (service objectPath iface property : String)
  | observeGetObjectReply (ec : Nat) (objects : MapperGetObject)
  | observeSubTreeReply (ec : Nat)
  | observeSubTreePathsReply (ec : Nat) (paths : MapperGetSubTreePathsResponse)
  | observeEndpointsReply (ec : Nat) (endpoints : MapperEndPoints)
  | mergeStep
  deriving DecidableEq

/-- Does the event issue the second-stage subtree query? -/
def issuesSubTreePathsQuery : Event → Bool
  | Event.issueMethod _ _ _ m _ _ _ => m = "GetSubTreePaths"
  | _ => false

/-- Does the event observe the endpoint-stage reply? -/
def observesEndpointsReply : Event → Bool
  | Event.observeEndpointsReply _ _ => true
  | _ => false

/-! ## The gateway operations (continuation-passing embeddings) -/

/-- Model of `checkDbusPathExists(path, callback)`: a `GetObject` call on the
mapper with an empty interface filter; the callback receives
`!ec && objectNames.size() != 0`. -/
def checkDbusPathExists (bus : BusState) (path : String) :
    List Event × Bool :=
  ([Event.issueMethod mapperBusName mapperObjectPath mapperInterface
      "GetObject" path none [],
    Event.observeGetObjectReply (bus.getObjectReply path []).1
      (bus.getObjectReply path []).2],
   (bus.getObjectReply path []).1 == 0 &&
     !((bus.getObjectReply path []).2.length == 0))

/-- Model of `getSubTree(path, depth, interfaces, callback)`. -/
def getSubTree {α : Type} (bus : BusState) (path : String) (depth : Int)
    (interfaces : List String)
    (callback : Nat → MapperGetSubTreeResponse → List Event × α) :
    List Event × α :=
  (Event.issueMethod mapperBusName mapperObjectPath mapperInterface
      "GetSubTree" path (some depth) interfaces ::
    Event.observeSubTreeReply (bus.subTreeReply path depth interfaces).1 ::
    (callback (bus.subTreeReply path depth interfaces).1
      (bus.subTreeReply path depth interfaces).2).1,
   (callback (bus.subTreeReply path depth interfaces).1
     (bus.subTreeReply path depth interfaces).2).2)

/-- Model of `getSubTreePaths(path, depth, interfaces, callback)`. -/
def getSubTreePaths {α : Type} (bus : BusState) (path : String) (depth : Int)
    (interfaces : List String)
    (callback : Nat → MapperGetSubTreePathsResponse → List Event × α) :
    List Event × α :=
  (Event.issueMethod mapperBusName mapperObjectPath mapperInterface
      "GetSubTreePaths" path (some depth) interfaces ::
    Event.observeSubTreePathsReply
      (bus.subTreePathsReply path depth interfaces).1
      (bus.subTreePathsReply path depth interfaces).2 ::
    (callback (bus.subTreePathsReply path depth interfaces).1
      (bus.subTreePathsReply path depth interfaces).2).1,
   (callback (bus.subTreePathsReply path depth interfaces).1
     (bus.subTreePathsReply path depth interfaces).2).2)

/-- Model of `getAssociationEndPoints(path, callback)`: a property read of
`endpoints` on the `xyz.openbmc_project.Association` interface,
addressed at `path` itself, through the mapper service. -/
def getAssociationEndPoints {α : Type} (bus : BusState) (path : String)
    (callback : Nat → MapperEndPoints → List Event × α) :
    List Event × α :=
  (Event.issueProperty mapperBusName path associationInterface "endpoints" ::
    Event.observeEndpointsReply
      (bus.propertyReply mapperBusName path associationInterface "endpoints").1
      (bus.propertyReply mapperBusName path associationInterface
        "endpoints").2 ::
    (callback
      (bus.propertyReply mapperBusName path associationInterface "endpoints").1
      (bus.propertyReply mapperBusName path associationInterface
        "endpoints").2).1,
   (callback
     (bus.propertyReply mapperBusName path associationInterface "endpoints").1
     (bus.propertyReply mapperBusName path associationInterface
       "endpoints").2).2)

/-- The merge of `validateAssociatedSubTreePaths`: keep the subtree
paths that belong to the endpoint set, then sort ascending. -/
def mergeAssociated (endpoints : MapperEndPoints)
    (subtreePaths : MapperGetSubTreePathsResponse) :
    MapperGetSubTreePathsResponse :=
  List.insertionSort (fun a b : String => a ≤ b)
    (subtreePaths.filter (fun p => decide (p ∈ endpoints)))

/-- Model of `validateAssociatedSubTreePaths`: issue the subtree-paths query; on
a failed or empty reply, pass the status through with an empty result;
otherwise intersect with the endpoint set, sort, and deliver. -/
def validateAssociatedSubTreePaths {α : Type} (bus : BusState)
    (endpoints : MapperEndPoints) (path : String) (depth : Int)
    (interfaces : List String)
    (callback : Nat → MapperGetSubTreePathsResponse → List Event × α) :
    List Event × α :=
  getSubTreePaths bus path depth interfaces (fun ec subtreePaths =>
    if ec ≠ 0 ∨ subtreePaths = [] then callback ec []
    else
      (Event.mergeStep :: (callback ec (mergeAssociated endpoints
        subtreePaths)).1,
       (callback ec (mergeAssociated endpoints subtreePaths)).2))

/-- Model of `getAssociatedSubTreePaths(associatedPath, path, depth, interfaces)`:
the two-stage pipeline; the returned pair is the event trace and the
`(error code, sorted associated paths)` the final callback receives. -/
def getAssociatedSubTreePaths (bus : BusState) (associatedPath path : String)
    (depth : Int) (interfaces : List String) :
    List Event × (Nat × MapperGetSubTreePathsResponse) :=
  getAssociationEndPoints bus associatedPath (fun ec endpoints =>
    if ec ≠ 0 ∨ endpoints = [] then ([], (ec, []))
    else
      validateAssociatedSubTreePaths bus endpoints path depth interfaces
        (fun ec2 subtreePaths => ([], (ec2, subtreePaths))))

/-- The endpoint-stage reply the bus delivers for association path `A`:
the reply to the property read issued by `getAssociationEndPoints`. -/
abbrev endpointsReplyOf (bus : BusState) (A : String) :
    Nat × MapperEndPoints :=
  bus.propertyReply mapperBusName A associationInterface "endpoints"

/-- The subtree-stage reply the bus delivers for root `R`, `depth` and
`interfaces`: the reply to the `GetSubTreePaths` call. -/
abbrev subTreePathsReplyOf (bus : BusState) (R : String) (depth : Int)
    (interfaces : List String) : Nat × MapperGetSubTreePathsResponse :=
  bus.subTreePathsReply R depth interfaces

/-! ## Concrete buses used to instantiate the theorems -/

/-- A bus holding the spec's end-to-end example: association endpoints
`{/inv/sys/fan0, /inv/sys/fan1}`, subtree under `/inv` =
`[/inv/sys/fan0, /inv/sys/psu0]`, every call succeeding. -/
def demoBus : BusState where
  propertyReply := fun _ _ _ _ => (0, ["/inv/sys/fan0", "/inv/sys/fan1"])
  getObjectReply := fun _ _ => (0, [("xyz.openbmc_project.Inventory.Manager",
    ["xyz.openbmc_project.Inventory.Item"])])
  subTreeReply := fun _ _ _ => (0, [])
  subTreePathsReply := fun _ _ _ => (0, ["/inv/sys/fan0", "/inv/sys/psu0"])

/-- Like `demoBus`, but the endpoint property read succeeds with an
empty endpoint set. -/
def emptyEndpointsBus : BusState where
  propertyReply := fun _ _ _ _ => (0, [])
  getObjectReply := demoBus.getObjectReply
  subTreeReply := demoBus.subTreeReply
  subTreePathsReply := demoBus.subTreePathsReply

/-- Like `demoBus`, but the subtree query succeeds with an empty path
sequence. -/
def emptySubtreeBus : BusState where
  propertyReply := demoBus.propertyReply
  getObjectReply := demoBus.getObjectReply
  subTreeReply := demoBus.subTreeReply
  subTreePathsReply := fun _ _ _ => (0, [])

/-- Like `demoBus`, but with a different `GetObject` reply: it agrees
with `demoBus` on both replies the pipeline reads. -/
def demoBusVariant : BusState where
  propertyReply := demoBus.propertyReply
  getObjectReply := fun _ _ => (1, [])
  subTreeReply := demoBus.subTreeReply
  subTreePathsReply := demoBus.subTreePathsReply

/-! ## Characterization of a pipeline run -/

/-- The three possible runs of `getAssociatedSubTreePaths`, by case on
the two short-circuit conditions of the source. -/
theorem getAssociatedSubTreePaths_eq (bus : BusState) (A R : String)
    (depth : Int) (interfaces : List String) :
    getAssociatedSubTreePaths bus A R depth interfaces =
      if (endpointsReplyOf bus A).1 ≠ 0 ∨ (endpointsReplyOf bus A).2 = []
      then
        ([Event.issueProperty mapperBusName A associationInterface
            "endpoints",
          Event.observeEndpointsReply (endpointsReplyOf bus A).1
            (endpointsReplyOf bus A).2],
         ((endpointsReplyOf bus A).1, []))
      else if (subTreePathsReplyOf bus R depth interfaces).1 ≠ 0 ∨
          (subTreePathsReplyOf bus R depth interfaces).2 = [] then
        ([Event.issueProperty mapperBusName A associationInterface
            "endpoints",
          Event.observeEndpointsReply (endpointsReplyOf bus A).1
            (endpointsReplyOf bus A).2,
          Event.issueMethod mapperBusName mapperObjectPath mapperInterface
            "GetSubTreePaths" R (some depth) interfaces,
          Event.observeSubTreePathsReply
            (subTreePathsReplyOf bus R depth interfaces).1
            (subTreePathsReplyOf bus R depth interfaces).2],
         ((subTreePathsReplyOf bus R depth interfaces).1, []))
      else
        ([Event.issueProperty mapperBusName A associationInterface
            "endpoints",
          Event.observeEndpointsReply (endpointsReplyOf bus A).1
            (endpointsReplyOf bus A).2,
          Event.issueMethod mapperBusName mapperObjectPath mapperInterface
            "GetSubTreePaths" R (some depth) interfaces,
          Event.observeSubTreePathsReply
            (subTreePathsReplyOf bus R depth interfaces).1
            (subTreePathsReplyOf bus R depth interfaces).2,
          Event.mergeStep],
         ((subTreePathsReplyOf bus R depth interfaces).1,
          mergeAssociated (endpointsReplyOf bus A).2
            (subTreePathsReplyOf bus R depth interfaces).2)) := by
  simp only [endpointsReplyOf, subTreePathsReplyOf]
  unfold getAssociatedSubTreePaths getAssociationEndPoints
    validateAssociatedSubTreePaths getSubTreePaths
  by_cases h1 : (bus.propertyReply mapperBusName A associationInterface
      "endpoints").1 ≠ 0 ∨
      (bus.propertyReply mapperBusName A associationInterface
        "endpoints").2 = []
  · simp only [h1, if_true, if_pos h1]
  · by_cases h2 : (bus.subTreePathsReply R depth interfaces).1 ≠ 0 ∨
        (bus.subTreePathsReply R depth interfaces).2 = []
    · simp only [h1, h2, if_false, if_true, if_neg h1, if_pos h2]
    · simp only [h1, h2, if_false, if_neg h1, if_neg h2]

/-! ## Claim theorems: the association pipeline -/

/-- C1: when the endpoint stage fails or yields an empty endpoint set,
the pipeline resolves with exactly that status and an empty path
sequence, and the second-stage subtree query is never issued. -/
theorem getAssociatedSubTreePaths_endpoint_short_circuit (bus : BusState)
    (A R : String) (depth : Int) (interfaces : List String)
    (h : (endpointsReplyOf bus A).1 ≠ 0 ∨ (endpointsReplyOf bus A).2 = []) :
    (getAssociatedSubTreePaths bus A R depth interfaces).2 =
      ((endpointsReplyOf bus A).1, []) ∧
    ∀ e ∈ (getAssociatedSubTreePaths bus A R depth interfaces).1,
      issuesSubTreePathsQuery e = false := by
  rw [getAssociatedSubTreePaths_eq, if_pos h]
  refine ⟨rfl, ?_⟩
  intro e he
  rcases List.mem_cons.mp he with rfl | he2
  · rfl
  · rcases List.mem_singleton.mp he2 with rfl
    rfl

/-- C1 witness: an empty-but-successful endpoint reply short-circuits
with success and an empty sequence. -/
theorem getAssociatedSubTreePaths_endpoint_short_circuit_witness :
    (getAssociatedSubTreePaths emptyEndpointsBus "/assoc" "/inv" 0 []).2 =
      (0, []) :=
  (getAssociatedSubTreePaths_endpoint_short_circuit emptyEndpointsBus
    "/assoc" "/inv" 0 [] (Or.inr rfl)).1

/-- C2: when the endpoint stage succeeds with a non-empty set but the
subtree stage fails or yields an empty path sequence, the pipeline
resolves with the subtree stage's status unchanged and an empty path
sequence, and the merge step never runs. -/
theorem getAssociatedSubTreePaths_subtree_short_circuit (bus : BusState)
    (A R : String) (depth : Int) (interfaces : List String)
    (hEp : (endpointsReplyOf bus A).1 = 0)
    (hEpNe : (endpointsReplyOf bus A).2 ≠ [])
    (h : (subTreePathsReplyOf bus R depth interfaces).1 ≠ 0 ∨
      (subTreePathsReplyOf bus R depth interfaces).2 = []) :
    (getAssociatedSubTreePaths bus A R depth interfaces).2 =
      ((subTreePathsReplyOf bus R depth interfaces).1, []) ∧
    Event.mergeStep ∉ (getAssociatedSubTreePaths bus A R depth interfaces).1
    := by
  have h1 : ¬((endpointsReplyOf bus A).1 ≠ 0 ∨
      (endpointsReplyOf bus A).2 = []) := by
    push_neg
    exact ⟨hEp, hEpNe⟩
  rw [getAssociatedSubTreePaths_eq, if_neg h1, if_pos h]
  refine ⟨rfl, ?_⟩
  simp

/-- C2 witness: an empty-but-successful subtree reply yields success
with an empty sequence. -/
theorem getAssociatedSubTreePaths_subtree_short_circuit_witness :
    (getAssociatedSubTreePaths emptySubtreeBus "/assoc" "/inv" 0 []).2 =
      (0, []) :=
  (getAssociatedSubTreePaths_subtree_short_circuit emptySubtreeBus
    "/assoc" "/inv" 0 [] rfl (by decide) (Or.inr rfl)).1

/-- C3: when both stages succeed with non-empty replies (the subtree
reply listing each path once), the delivered sequence is strictly
ascending in the string order with no duplicates, and a path is in it
iff it is both a subtree path and an endpoint. -/
theorem getAssociatedSubTreePaths_merge_spec (bus : BusState)
    (A R : String) (depth : Int) (interfaces : List String)
    (hEp : (endpointsReplyOf bus A).1 = 0)
    (hEpNe : (endpointsReplyOf bus A).2 ≠ [])
    (hSt : (subTreePathsReplyOf bus R depth interfaces).1 = 0)
    (hStNe : (subTreePathsReplyOf bus R depth interfaces).2 ≠ [])
    (hNd : (subTreePathsReplyOf bus R depth interfaces).2.Nodup) :
    (getAssociatedSubTreePaths bus A R depth interfaces).2.1 = 0 ∧
    List.Sorted (fun a b : String => a < b)
      (getAssociatedSubTreePaths bus A R depth interfaces).2.2 ∧
    ∀ p : String,
      p ∈ (getAssociatedSubTreePaths bus A R depth interfaces).2.2 ↔
        (p ∈ (subTreePathsReplyOf bus R depth interfaces).2 ∧
         p ∈ (endpointsReplyOf bus A).2) := by
  have h1 : ¬((endpointsReplyOf bus A).1 ≠ 0 ∨
      (endpointsReplyOf bus A).2 = []) := by
    push_neg
    exact ⟨hEp, hEpNe⟩
  have h2 : ¬((subTreePathsReplyOf bus R depth interfaces).1 ≠ 0 ∨
      (subTreePathsReplyOf bus R depth interfaces).2 = []) := by
    push_neg
    exact ⟨hSt, hStNe⟩
  rw [getAssociatedSubTreePaths_eq, if_neg h1, if_neg h2]
  refine ⟨hSt, ?_, ?_⟩
  · have hperm := List.perm_insertionSort (fun a b : String => a ≤ b)
      ((subTreePathsReplyOf bus R depth interfaces).2.filter
        (fun p => decide (p ∈ (endpointsReplyOf bus A).2)))
    have hnd : (mergeAssociated (endpointsReplyOf bus A).2
        (subTreePathsReplyOf bus R depth interfaces).2).Nodup :=
      hperm.nodup_iff.mpr (hNd.filter _)
    have hsorted : List.Sorted (fun a b : String => a ≤ b)
        (mergeAssociated (endpointsReplyOf bus A).2
          (subTreePathsReplyOf bus R depth interfaces).2) :=
      List.sorted_insertionSort _ _
    exact hsorted.lt_of_le hnd
  · intro p
    unfold mergeAssociated
    rw [List.mem_insertionSort, List.mem_filter, decide_eq_true_eq]

/-- C3 witness: the spec's end-to-end example, with every hypothesis
discharged on the concrete bus. -/
theorem getAssociatedSubTreePaths_merge_spec_witness :
    List.Sorted (fun a b : String => a < b)
      (getAssociatedSubTreePaths demoBus "/assoc" "/inv" 0 []).2.2 ∧
    ("/inv/sys/fan0" ∈
        (getAssociatedSubTreePaths demoBus "/assoc" "/inv" 0 []).2.2 ↔
      ("/inv/sys/fan0" ∈ (subTreePathsReplyOf demoBus "/inv" 0 []).2 ∧
       "/inv/sys/fan0" ∈ (endpointsReplyOf demoBus "/assoc").2)) :=
  ⟨(getAssociatedSubTreePaths_merge_spec demoBus "/assoc" "/inv" 0 []
      rfl (by decide) rfl (by decide) (by decide)).2.1,
   (getAssociatedSubTreePaths_merge_spec demoBus "/assoc" "/inv" 0 []
      rfl (by decide) rfl (by decide) (by decide)).2.2 "/inv/sys/fan0"⟩

/-- C6: the existence check issues `GetObject` on the mapper with an
empty interface filter, and reports true iff the call succeeded and the
object list is non-empty. -/
theorem checkDbusPathExists_spec (bus : BusState) (path : String) :
    ((checkDbusPathExists bus path).2 = true ↔
      (bus.getObjectReply path []).1 = 0 ∧
      (bus.getObjectReply path []).2 ≠ []) ∧
    (checkDbusPathExists bus path).1 =
      [Event.issueMethod mapperBusName mapperObjectPath mapperInterface
        "GetObject" path none [],
       Event.observeGetObjectReply (bus.getObjectReply path []).1
        (bus.getObjectReply path []).2] := by
  refine ⟨?_, rfl⟩
  show ((bus.getObjectReply path []).1 == 0 &&
      !((bus.getObjectReply path []).2.length == 0)) = true ↔ _
  simp [List.length_eq_zero]

/-- C7: every remote call of the gateway is addressed at the well-known
mapper service/path/interface constants, except the endpoints property
read, which targets the association interface and `endpoints` property
at the association's own path while keeping the mapper service name. -/
theorem mapperAddressConstants (bus : BusState) (p A R : String)
    (depth : Int) (interfaces : List String) :
    (∀ (s o i m ap : String) (ad : Option Int) (ai : List String),
      Event.issueMethod s o i m ap ad ai ∈
          (getAssociatedSubTreePaths bus A R depth interfaces).1 →
        s = "xyz.openbmc_project.ObjectMapper" ∧
        o = "/xyz/openbmc_project/object_mapper" ∧
        i = "xyz.openbmc_project.ObjectMapper") ∧
    (∀ s o i pr : String,
      Event.issueProperty s o i pr ∈
          (getAssociatedSubTreePaths bus A R depth interfaces).1 →
        s = "xyz.openbmc_project.ObjectMapper" ∧ o = A ∧
        i = "xyz.openbmc_project.Association" ∧ pr = "endpoints") ∧
    (∀ (s o i m ap : String) (ad : Option Int) (ai : List String),
      Event.issueMethod s o i m ap ad ai ∈ (checkDbusPathExists bus p).1 →
        s = "xyz.openbmc_project.ObjectMapper" ∧
        o = "/xyz/openbmc_project/object_mapper" ∧
        i = "xyz.openbmc_project.ObjectMapper") ∧
    (∀ (s o i m ap : String) (ad : Option Int) (ai : List String),
      Event.issueMethod s o i m ap ad ai ∈
          (getSubTree bus p depth interfaces (fun _ _ => ([], 0))).1 →
        s = "xyz.openbmc_project.ObjectMapper" ∧
        o = "/xyz/openbmc_project/object_mapper" ∧
        i = "xyz.openbmc_project.ObjectMapper") := by
  refine ⟨?_, ?_, ?_, ?_⟩
  · intro s o i m ap ad ai hmem
    rw [getAssociatedSubTreePaths_eq] at hmem
    split_ifs at hmem <;>
      simp [mapperBusName, mapperObjectPath, mapperInterface,
        associationInterface] at hmem <;>
      tauto
  · intro s o i pr hmem
    rw [getAssociatedSubTreePaths_eq] at hmem
    split_ifs at hmem <;>
      simp [mapperBusName, mapperObjectPath, mapperInterface,
        associationInterface] at hmem <;>
      tauto
  · intro s o i m ap ad ai hmem
    simp [checkDbusPathExists, mapperBusName, mapperObjectPath,
      mapperInterface] at hmem
    tauto
  · intro s o i m ap ad ai hmem
    simp [getSubTree, mapperBusName, mapperObjectPath,
      mapperInterface] at hmem
    tauto

/-- C7 witness: the property read of a concrete run carries the mapper
service name, the association's own path, the association interface and
the `endpoints` property name. -/
theorem mapperAddressConstants_witness :
    mapperBusName = "xyz.openbmc_project.ObjectMapper" ∧
    "/assoc" = "/assoc" ∧
    associationInterface = "xyz.openbmc_project.Association" ∧
    "endpoints" = "endpoints" :=
  (mapperAddressConstants demoBus "/obj" "/assoc" "/inv" 0 []).2.1
    mapperBusName "/assoc" associationInterface "endpoints" (by decide)

/-- C8: two runs against buses whose endpoint and subtree replies for
the given arguments coincide deliver the same status and sequence. -/
theorem getAssociatedSubTreePaths_deterministic (bus1 bus2 : BusState)
    (A R : String) (depth : Int) (interfaces : List String)
    (hEp : endpointsReplyOf bus1 A = endpointsReplyOf bus2 A)
    (hSt : subTreePathsReplyOf bus1 R depth interfaces =
      subTreePathsReplyOf bus2 R depth interfaces) :
    (getAssociatedSubTreePaths bus1 A R depth interfaces).2 =
    (getAssociatedSubTreePaths bus2 A R depth interfaces).2 := by
  rw [getAssociatedSubTreePaths_eq, getAssociatedSubTreePaths_eq, hEp, hSt]

/-- C8 witness: two buses that agree on the two replies the pipeline
reads (but differ on `GetObject`) deliver identical results. -/
theorem getAssociatedSubTreePaths_deterministic_witness :
    (getAssociatedSubTreePaths demoBus "/assoc" "/inv" 0 []).2 =
    (getAssociatedSubTreePaths demoBusVariant "/assoc" "/inv" 0 []).2 :=
  getAssociatedSubTreePaths_deterministic demoBus demoBusVariant
    "/assoc" "/inv" 0 [] rfl rfl

/-- C9: within one run, any issue of the subtree query occurs strictly
after an observation of the endpoint reply in the event trace. -/
theorem getAssociatedSubTreePaths_ordering (bus : BusState) (A R : String)
    (depth : Int) (interfaces : List String) (i : Nat) (e : Event)
    (hi : (getAssociatedSubTreePaths bus A R depth interfaces).1.get? i =
      some e)
    (hq : issuesSubTreePathsQuery e = true) :
    ∃ (j : Nat) (e2 : Event), j < i ∧
      (getAssociatedSubTreePaths bus A R depth interfaces).1.get? j =
        some e2 ∧
      observesEndpointsReply e2 = true := by
  rw [getAssociatedSubTreePaths_eq] at hi ⊢
  split_ifs at hi ⊢ with h1 h2
  · rcases i with _ | _ | i
    · simp at hi
      subst hi
      exact Bool.noConfusion hq
    · simp at hi
      subst hi
      exact Bool.noConfusion hq
    · simp at hi
  · rcases i with _ | _ | _ | _ | i
    · simp at hi
      subst hi
      exact Bool.noConfusion hq
    · simp at hi
      subst hi
      exact Bool.noConfusion hq
    · exact ⟨1, Event.observeEndpointsReply (endpointsReplyOf bus A).1
        (endpointsReplyOf bus A).2, by omega, rfl, rfl⟩
    · simp at hi
      subst hi
      exact Bool.noConfusion hq
    · simp at hi
  · rcases i with _ | _ | _ | _ | _ | i
    · simp at hi
      subst hi
      exact Bool.noConfusion hq
    · simp at hi
      subst hi
      exact Bool.noConfusion hq
    · exact ⟨1, Event.observeEndpointsReply (endpointsReplyOf bus A).1
        (endpointsReplyOf bus A).2, by omega, rfl, rfl⟩
    · simp at hi
      subst hi
      exact Bool.noConfusion hq
    · simp at hi
      subst hi
      exact Bool.noConfusion hq
    · simp at hi

/-- C9 witness: in the demo run the subtree query sits at index 2 of
the trace, and an endpoint-reply observation precedes it. -/
theorem getAssociatedSubTreePaths_ordering_witness :
    ∃ (j : Nat) (e2 : Event), j < 2 ∧
      (getAssociatedSubTreePaths demoBus "/assoc" "/inv" 0 []).1.get? j =
        some e2 ∧
      observesEndpointsReply e2 = true :=
  getAssociatedSubTreePaths_ordering demoBus "/assoc" "/inv" 0 [] 2
    (Event.issueMethod mapperBusName mapperObjectPath mapperInterface
      "GetSubTreePaths" "/inv" (some 0) []) (by decide) rfl

/-! ## Claim theorems: pure path utilities -/

/-- C4: `escapePathForDbus` produces a string of the same length as its
input in which every character outside `[A-Za-z0-9_/]` is replaced by an
underscore and every other character is unchanged; escaping `"a/b c!d"`
yields `"a/b_c_d"`. -/
theorem escapePathForDbus_spec :
    (∀ s : String, (escapePathForDbus s).length = s.length) ∧
    (∀ (s : String) (i : Nat),
      (escapePathForDbus s).data.get? i =
        (s.data.get? i).map (fun c =>
          if ( 'A' ≤ c ∧ c ≤ 'Z') ∨ ( 'a' ≤ c ∧ c ≤ 'z') ∨
              ( '0' ≤ c ∧ c ≤ '9') ∨ c = '_' ∨ c = '/' then c
          else '_')) ∧
    escapePathForDbus "a/b c!d" = "a/b_c_d" := by
  refine ⟨?_, ?_, by decide⟩
  · intro s
    show (s.data.map escapeCharForDbus).length = s.data.length
    simp
  · intro s i
    show (s.data.map escapeCharForDbus).get? i = _
    rw [List.get?_eq_getElem?, List.get?_eq_getElem?, List.getElem?_map]
    cases s.data.get? i with
    | none => rfl
    | some c => rfl

/-- C5: `getNthStringFromPath` fails exactly when the index is negative
or at least the number of non-empty path segments; otherwise it succeeds
with the stem of the segment at that index.  On
`"/xyz/openbmc_project/state/host0"`, index 2 yields `"state"` and index
9 fails. -/
theorem getNthStringFromPath_spec :
    (∀ (path : String) (index : Int) (r0 : String),
      ((getNthStringFromPath path index r0).1 = false ↔
        index < 0 ∨ ((pathSegments path).length : Int) ≤ index)) ∧
    (∀ (path : String) (index : Int) (r0 : String) (h0 : 0 ≤ index)
      (h : index.toNat < (pathSegments path).length),
      getNthStringFromPath path index r0 =
        (true, stemString ((pathSegments path).get ⟨index.toNat, h⟩))) ∧
    (∀ r0 : String,
      getNthStringFromPath "/xyz/openbmc_project/state/host0" 2 r0 =
        (true, "state")) ∧
    (∀ r0 : String,
      getNthStringFromPath "/xyz/openbmc_project/state/host0" 9 r0 =
        (false, r0)) := by
  refine ⟨?_, ?_, fun r0 => rfl, fun r0 => rfl⟩
  · intro path index r0
    unfold getNthStringFromPath
    by_cases hneg : index < 0
    · rw [if_pos hneg]
      exact iff_of_true rfl (Or.inl hneg)
    · rw [if_neg hneg]
      have h0 : 0 ≤ index := le_of_not_lt hneg
      rcases hg : (pathSegments path).get? index.toNat with _ | seg
      · have hlen := List.get?_eq_none.mp hg
        refine iff_of_true rfl (Or.inr ?_)
        omega
      · rcases List.get?_eq_some.mp hg with ⟨hlt, _⟩
        refine iff_of_false (by simp) ?_
        rintro (h1 | h2)
        · exact hneg h1
        · omega
  · intro path index r0 h0 h
    unfold getNthStringFromPath
    rw [if_neg (not_lt.mpr h0), List.get?_eq_get h]

/-- C5 witness: a successful lookup at a concrete path and index,
with both hypotheses discharged. -/
theorem getNthStringFromPath_spec_witness :
    getNthStringFromPath "/a/b.txt" 1 "orig" =
      (true, stemString ((pathSegments "/a/b.txt").get
        ⟨Int.toNat 1, by decide⟩)) :=
  getNthStringFromPath_spec.2.1 "/a/b.txt" 1 "orig" (by decide) (by decide)

/-- C10: whenever `getNthStringFromPath` returns `false`, the in/out
parameter `result` keeps its initial value. -/
theorem getNthStringFromPath_frame (path : String) (index : Int)
    (r0 : String) (h : (getNthStringFromPath path index r0).1 = false) :
    (getNthStringFromPath path index r0).2 = r0 := by
  unfold getNthStringFromPath at h ⊢
  by_cases hneg : index < 0
  · rw [if_pos hneg]
  · rw [if_neg hneg] at h ⊢
    rcases hg : (pathSegments path).get? index.toNat with _ | seg
    · rfl
    · rw [hg] at h
      simp at h

/-- C10 witness: an out-of-range lookup leaves the result parameter
untouched. -/
theorem getNthStringFromPath_frame_witness :
    (getNthStringFromPath "/a/b" 5 "orig").2 = "orig" :=
  getNthStringFromPath_frame "/a/b" 5 "orig" (by decide)

end utility

end dbus
